import Mathlib

/-!
Verification development for the styxe 9P2000 / 9P2000.e protocol codec.

This file gives a shallow embedding of the message parser found in
`src/9p2000.cpp` together with the data model of `include/styxe/9p2000.hpp`,
and proves properties of the parser entry points
(`Parser::parseMessageHeader`, `Parser::parseResponse`, `Parser::parseRequest`,
`Parser::maxNegotiatedMessageSize`).

Modelling conventions:
* Bytes are `Nat` values (< 256 on real inputs); machine integers are `Nat`
  with explicit `% 2 ^ 32` where 32-bit overflow matters.
* `Solace::ByteReader` is a list of bytes with a read position; the C++ code
  advances the reader in place, so parsing functions here return the advanced
  reader explicitly.
* `Solace::Result<T, Error>` is `Except Error T`; the canned protocol errors
  of `getCannedError` are represented by the `CannedError` code itself.
* The primitive decoder operations live in `include/styxe/decoder.hpp`, which
  is not part of the source tree given here; those primitives are modelled
  from the specification (little-endian fixed-width integers, `u16`-prefixed
  strings, `u32`-prefixed blobs, 13-byte qids, every primitive read failing
  with NotEnoughData when the cursor holds fewer bytes than requested).
  Everything else is translated from `src/9p2000.cpp`.
-/

/-- Protocol error codes, mirroring `enum class CannedError` of 9p2000.hpp. -/
inductive CannedError where
  | IllFormedHeader
  | IllFormedHeader_FrameTooShort
  | IllFormedHeader_TooBig
  | UnsupportedMessageType
  | NotEnoughData
  | MoreThenExpectedData
deriving DecidableEq, Repr

/-- Errors surfaced by the codec are the canned protocol errors. -/
abbrev Error := CannedError

/-- Mirrors `styxe::getCannedError`: the canned `Error` for a given code. -/
def getCannedError (errorId : CannedError) : Error := errorId

/-- Modelled from the spec: `Solace::ByteReader`, an in-memory byte cursor
with a current read position over an immutable byte buffer. -/
structure ByteReader where
  data : List Nat
  pos : Nat
deriving DecidableEq, Repr

/-- Number of bytes left to read, as `ByteReader::remaining`. -/
def ByteReader.remaining (r : ByteReader) : Nat := r.data.length - r.pos

/-- Modelled from the spec: read one byte, failing (NotEnoughData at the
call sites) when no byte remains. -/
def ByteReader.readByte (r : ByteReader) : Option (Nat × ByteReader) :=
  if r.remaining < 1 then none
  else some (r.data.getD r.pos 0, { r with pos := r.pos + 1 })

/-- Modelled from the spec: read a raw run of `n` bytes, failing when fewer
than `n` bytes remain. -/
def ByteReader.readBytes (r : ByteReader) (n : Nat) : Option (List Nat × ByteReader) :=
  if r.remaining < n then none
  else some ((r.data.drop r.pos).take n, { r with pos := r.pos + n })

/-- Modelled from the spec: little-endian unsigned integer of `n` bytes
(first byte least significant). -/
def readUleBytes : Nat → ByteReader → Option (Nat × ByteReader)
  | 0, r => some (0, r)
  | n + 1, r =>
    match r.readByte with
    | none => none
    | some (b, r1) =>
      match readUleBytes n r1 with
      | none => none
      | some (hi, r2) => some (b + 256 * hi, r2)

/-- Modelled from the spec: decode a `u16` little-endian. -/
def readU16le (r : ByteReader) : Option (Nat × ByteReader) := readUleBytes 2 r

/-- Modelled from the spec: decode a `u32` little-endian. -/
def readU32le (r : ByteReader) : Option (Nat × ByteReader) := readUleBytes 4 r

/-- Modelled from the spec: decode a `u64` little-endian. -/
def readU64le (r : ByteReader) : Option (Nat × ByteReader) := readUleBytes 8 r

/-- Modelled from the spec: a string is a `u16` length followed by exactly
that many bytes; the decoder returns the borrowed byte run. -/
def readString (r : ByteReader) : Option (List Nat × ByteReader) := do
  let (len, r1) ← readU16le r
  r1.readBytes len

/-- Modelled from the spec: a byte blob is a `u32` length followed by exactly
that many bytes. -/
def readBlob (r : ByteReader) : Option (List Nat × ByteReader) := do
  let (len, r1) ← readU32le r
  r1.readBytes len

/-- Mirrors `struct Qid` of 9p2000.hpp: `type(u8) version(u32) path(u64)`. -/
structure Qid where
  type : Nat
  version : Nat
  path : Nat
deriving DecidableEq, Repr

/-- Modelled from the spec: a `Qid` decodes as `type(u8) version(u32)
path(u64)`, 13 bytes in total. -/
def readQid (r : ByteReader) : Option (Qid × ByteReader) := do
  let (t, r1) ← r.readByte
  let (v, r2) ← readU32le r1
  let (p, r3) ← readU64le r2
  some ({ type := t, version := v, path := p }, r3)

/-- Mirrors `struct Stat` of 9p2000.hpp. -/
structure Stat where
  size : Nat
  type : Nat
  dev : Nat
  qid : Qid
  mode : Nat
  atime : Nat
  mtime : Nat
  length : Nat
  name : List Nat
  uid : List Nat
  gid : List Nat
  muid : List Nat
deriving DecidableEq, Repr

/-- Modelled from the spec: a `Stat` decodes its `size(u16)`, then
`type(u16) dev(u32) qid(13) mode(u32) atime(u32) mtime(u32) length(u64)`,
then four strings `name, uid, gid, muid` in order. -/
def readStat (r : ByteReader) : Option (Stat × ByteReader) := do
  let (sz, r1) ← readU16le r
  let (ty, r2) ← readU16le r1
  let (dev, r3) ← readU32le r2
  let (qid, r4) ← readQid r3
  let (mode, r5) ← readU32le r4
  let (atime, r6) ← readU32le r5
  let (mtime, r7) ← readU32le r6
  let (len, r8) ← readU64le r7
  let (name, r9) ← readString r8
  let (uid, r10) ← readString r9
  let (gid, r11) ← readString r10
  let (muid, r12) ← readString r11
  some ({ size := sz, type := ty, dev := dev, qid := qid, mode := mode,
          atime := atime, mtime := mtime, length := len,
          name := name, uid := uid, gid := gid, muid := muid }, r12)

/-- Modelled from the spec: `n` consecutive length-prefixed strings. -/
def readStrings : Nat → ByteReader → Option (List (List Nat) × ByteReader)
  | 0, r => some ([], r)
  | n + 1, r => do
    let (s, r1) ← readString r
    let (rest, r2) ← readStrings n r1
    some (s :: rest, r2)

/-- Modelled from the spec: a `WalkPath` decodes as a `u16` count followed by
that many strings. -/
def readWalkPath (r : ByteReader) : Option (List (List Nat) × ByteReader) := do
  let (n, r1) ← readU16le r
  readStrings n r1

/-- Size in bytes of the mandatory message header, as `styxe::headerSize()`:
`size(4) + type(1) + tag(2)`. -/
def headerSize : Nat := 4 + 1 + 2

/-- Mirrors `struct MessageHeader`: `messageSize(u32) type(u8) tag(u16)`.
The type is kept as the raw byte value, exactly as the C++ code casts the
byte to `MessageType` without restricting it. -/
structure MessageHeader where
  messageSize : Nat
  type : Nat
  tag : Nat
deriving DecidableEq, Repr

/-- Mirrors `MessageHeader::payloadSize()`: `messageSize - headerSize()` in
`u32` arithmetic (wrapping below zero, as the C++ comment concedes). -/
def MessageHeader.payloadSize (h : MessageHeader) : Nat :=
  (h.messageSize + (2 ^ 32 - headerSize)) % 2 ^ 32

/-- Mirrors the `RequestMessage` variant of 9p2000.hpp. -/
inductive RequestMessage where
  | Version (msize : Nat) (version : List Nat)
  | Auth (afid : Nat) (uname aname : List Nat)
  | Flush (oldtag : Nat)
  | Attach (fid afid : Nat) (uname aname : List Nat)
  | Walk (fid newfid : Nat) (path : List (List Nat))
  | Open (fid : Nat) (mode : Nat)
  | Create (fid : Nat) (name : List Nat) (perm : Nat) (mode : Nat)
  | Read (fid : Nat) (offset : Nat) (count : Nat)
  | Write (fid : Nat) (offset : Nat) (data : List Nat)
  | Clunk (fid : Nat)
  | Remove (fid : Nat)
  | StatRequest (fid : Nat)
  | WStat (fid : Nat) (stat : Stat)
  | Session (key : List Nat)
  | SRead (fid : Nat) (path : List (List Nat))
  | SWrite (fid : Nat) (path : List (List Nat)) (data : List Nat)
deriving DecidableEq, Repr

/-- Mirrors the `ResponseMessage` variant of 9p2000.hpp. The `Walk` variant
carries the decoded qids as a list; the C++ struct stores them in a
fixed `Qid qids[16]` array, whose bound is examined separately below. -/
inductive ResponseMessage where
  | Version (msize : Nat) (version : List Nat)
  | Auth (qid : Qid)
  | Attach (qid : Qid)
  | Error (ename : List Nat)
  | Flush
  | Walk (nqids : Nat) (qids : List Qid)
  | Open (qid : Qid) (iounit : Nat)
  | Create (qid : Qid) (iounit : Nat)
  | Read (data : List Nat)
  | Write (count : Nat)
  | Clunk
  | Remove
  | Stat (dummySize : Nat) (data : Stat)
  | WStat
  | Session
deriving DecidableEq, Repr

/-- Lift a decode outcome into the codec result: a failed primitive read
surfaces as the NotEnoughData canned error (spec §4.1). -/
def ofDecoded {α : Type} : Option α → Except Error α
  | some a => Except.ok a
  | none => Except.error (getCannedError CannedError.NotEnoughData)

/-- Mirrors `parseErrorResponse` of 9p2000.cpp. -/
def parseErrorResponse (data : ByteReader) : Except Error ResponseMessage :=
  ofDecoded (do
    let (ename, _) ← readString data
    some (ResponseMessage.Error ename))

/-- Mirrors `parseVersionResponse` of 9p2000.cpp. -/
def parseVersionResponse (data : ByteReader) : Except Error ResponseMessage :=
  ofDecoded (do
    let (msize, r1) ← readU32le data
    let (version, _) ← readString r1
    some (ResponseMessage.Version msize version))

/-- Mirrors `parseAuthResponse` of 9p2000.cpp. -/
def parseAuthResponse (data : ByteReader) : Except Error ResponseMessage :=
  ofDecoded (do
    let (qid, _) ← readQid data
    some (ResponseMessage.Auth qid))

/-- Mirrors `parseAttachResponse` of 9p2000.cpp. -/
def parseAttachResponse (data : ByteReader) : Except Error ResponseMessage :=
  ofDecoded (do
    let (qid, _) ← readQid data
    some (ResponseMessage.Attach qid))

/-- Mirrors `parseOpenResponse` of 9p2000.cpp. -/
def parseOpenResponse (data : ByteReader) : Except Error ResponseMessage :=
  ofDecoded (do
    let (qid, r1) ← readQid data
    let (iounit, _) ← readU32le r1
    some (ResponseMessage.Open qid iounit))

/-- Mirrors `parseCreateResponse` of 9p2000.cpp. -/
def parseCreateResponse (data : ByteReader) : Except Error ResponseMessage :=
  ofDecoded (do
    let (qid, r1) ← readQid data
    let (iounit, _) ← readU32le r1
    some (ResponseMessage.Create qid iounit))

/-- Mirrors `parseReadResponse` of 9p2000.cpp: a single blob field. -/
def parseReadResponse (data : ByteReader) : Except Error ResponseMessage :=
  ofDecoded (do
    let (d, _) ← readBlob data
    some (ResponseMessage.Read d))

/-- Mirrors `parseWriteResponse` of 9p2000.cpp: a single `u32` count. -/
def parseWriteResponse (data : ByteReader) : Except Error ResponseMessage :=
  ofDecoded (do
    let (count, _) ← readU32le data
    some (ResponseMessage.Write count))

/-- Mirrors `parseStatResponse` of 9p2000.cpp. -/
def parseStatResponse (data : ByteReader) : Except Error ResponseMessage :=
  ofDecoded (do
    let (dummySize, r1) ← readU16le data
    let (st, _) ← readStat r1
    some (ResponseMessage.Stat dummySize st))

/-- Mirrors the qid loop of `parseWalkResponse` of 9p2000.cpp:
`for (i = 0; i < nqids && result; ++i) result = decoder >> fcall.qids[i];`.
The first component records, in order, every array index `i` at which the
loop stores a decoded qid into `fcall.qids[i]`; the second is the loop
outcome (`none` when a qid read ran out of data). -/
def walkQidLoop : Nat → Nat → ByteReader → List Nat × Option (List Qid × ByteReader)
  | 0, _, r => ([], some ([], r))
  | n + 1, i, r =>
    match readQid r with
    | none => ([], none)
    | some (q, r1) =>
      match walkQidLoop n (i + 1) r1 with
      | (ws, none) => (i :: ws, none)
      | (ws, some (qs, r2)) => (i :: ws, some (q :: qs, r2))

/-- Mirrors `parseWalkResponse` of 9p2000.cpp: read `nqids(u16)`, then read
that many qids into the qid array with no bound check (the source marks the
loop `FIXME: Non-sense!`). -/
def parseWalkResponse (data : ByteReader) : Except Error ResponseMessage :=
  match readU16le data with
  | none => Except.error (getCannedError CannedError.NotEnoughData)
  | some (nqids, r1) =>
    match (walkQidLoop nqids 0 r1).2 with
    | none => Except.error (getCannedError CannedError.NotEnoughData)
    | some (qs, _) => Except.ok (ResponseMessage.Walk nqids qs)

/-- Array indices of `Response::Walk::qids` written by `parseWalkResponse`
on the given payload. The C++ array has 16 slots, so any recorded index
at 16 or beyond is an out-of-bounds store. -/
def walkWriteIndices (data : ByteReader) : List Nat :=
  match readU16le data with
  | none => []
  | some (nqids, r1) => (walkQidLoop nqids 0 r1).1

/-- Mirrors `parseVersionRequest` of 9p2000.cpp. -/
def parseVersionRequest (data : ByteReader) : Except Error RequestMessage :=
  ofDecoded (do
    let (msize, r1) ← readU32le data
    let (version, _) ← readString r1
    some (RequestMessage.Version msize version))

/-- Mirrors `parseAuthRequest` of 9p2000.cpp. -/
def parseAuthRequest (data : ByteReader) : Except Error RequestMessage :=
  ofDecoded (do
    let (afid, r1) ← readU32le data
    let (uname, r2) ← readString r1
    let (aname, _) ← readString r2
    some (RequestMessage.Auth afid uname aname))

/-- Mirrors `parseFlushRequest` of 9p2000.cpp. -/
def parseFlushRequest (data : ByteReader) : Except Error RequestMessage :=
  ofDecoded (do
    let (oldtag, _) ← readU16le data
    some (RequestMessage.Flush oldtag))

/-- Mirrors `parseAttachRequest` of 9p2000.cpp. -/
def parseAttachRequest (data : ByteReader) : Except Error RequestMessage :=
  ofDecoded (do
    let (fid, r1) ← readU32le data
    let (afid, r2) ← readU32le r1
    let (uname, r3) ← readString r2
    let (aname, _) ← readString r3
    some (RequestMessage.Attach fid afid uname aname))

/-- Mirrors `parseWalkRequest` of 9p2000.cpp. -/
def parseWalkRequest (data : ByteReader) : Except Error RequestMessage :=
  ofDecoded (do
    let (fid, r1) ← readU32le data
    let (newfid, r2) ← readU32le r1
    let (path, _) ← readWalkPath r2
    some (RequestMessage.Walk fid newfid path))

/-- Mirrors `parseOpenRequest` of 9p2000.cpp. -/
def parseOpenRequest (data : ByteReader) : Except Error RequestMessage :=
  ofDecoded (do
    let (fid, r1) ← readU32le data
    let (mode, _) ← r1.readByte
    some (RequestMessage.Open fid mode))

/-- Mirrors `parseCreateRequest` of 9p2000.cpp. -/
def parseCreateRequest (data : ByteReader) : Except Error RequestMessage :=
  ofDecoded (do
    let (fid, r1) ← readU32le data
    let (name, r2) ← readString r1
    let (perm, r3) ← readU32le r2
    let (mode, _) ← r3.readByte
    some (RequestMessage.Create fid name perm mode))

/-- Mirrors `parseReadRequest` of 9p2000.cpp. -/
def parseReadRequest (data : ByteReader) : Except Error RequestMessage :=
  ofDecoded (do
    let (fid, r1) ← readU32le data
    let (offset, r2) ← readU64le r1
    let (count, _) ← readU32le r2
    some (RequestMessage.Read fid offset count))

/-- Mirrors `parseWriteRequest` of 9p2000.cpp. -/
def parseWriteRequest (data : ByteReader) : Except Error RequestMessage :=
  ofDecoded (do
    let (fid, r1) ← readU32le data
    let (offset, r2) ← readU64le r1
    let (d, _) ← readBlob r2
    some (RequestMessage.Write fid offset d))

/-- Mirrors `parseClunkRequest` of 9p2000.cpp. -/
def parseClunkRequest (data : ByteReader) : Except Error RequestMessage :=
  ofDecoded (do
    let (fid, _) ← readU32le data
    some (RequestMessage.Clunk fid))

/-- Mirrors `parseRemoveRequest` of 9p2000.cpp. -/
def parseRemoveRequest (data : ByteReader) : Except Error RequestMessage :=
  ofDecoded (do
    let (fid, _) ← readU32le data
    some (RequestMessage.Remove fid))

/-- Mirrors `parseStatRequest` of 9p2000.cpp. -/
def parseStatRequest (data : ByteReader) : Except Error RequestMessage :=
  ofDecoded (do
    let (fid, _) ← readU32le data
    some (RequestMessage.StatRequest fid))

/-- Mirrors `parseWStatRequest` of 9p2000.cpp. -/
def parseWStatRequest (data : ByteReader) : Except Error RequestMessage :=
  ofDecoded (do
    let (fid, r1) ← readU32le data
    let (st, _) ← readStat r1
    some (RequestMessage.WStat fid st))

/-- Mirrors `parseSessionRequest` of 9p2000.cpp: eight single key bytes. -/
def parseSessionRequest (data : ByteReader) : Except Error RequestMessage :=
  ofDecoded (do
    let (k0, r1) ← data.readByte
    let (k1, r2) ← r1.readByte
    let (k2, r3) ← r2.readByte
    let (k3, r4) ← r3.readByte
    let (k4, r5) ← r4.readByte
    let (k5, r6) ← r5.readByte
    let (k6, r7) ← r6.readByte
    let (k7, _) ← r7.readByte
    some (RequestMessage.Session [k0, k1, k2, k3, k4, k5, k6, k7]))

/-- Mirrors `parseShortReadRequest` of 9p2000.cpp. -/
def parseShortReadRequest (data : ByteReader) : Except Error RequestMessage :=
  ofDecoded (do
    let (fid, r1) ← readU32le data
    let (path, _) ← readWalkPath r1
    some (RequestMessage.SRead fid path))

/-- Mirrors `parseShortWriteRequest` of 9p2000.cpp. -/
def parseShortWriteRequest (data : ByteReader) : Except Error RequestMessage :=
  ofDecoded (do
    let (fid, r1) ← readU32le data
    let (path, r2) ← readWalkPath r1
    let (d, _) ← readBlob r2
    some (RequestMessage.SWrite fid path d))

/-- The `switch (header.type)` of `Parser::parseResponse`, keyed by the raw
type byte: `RVersion = 101, RAuth = 103, RAttach = 105, RError = 107,
RFlush = 109, RWalk = 111, ROpen = 113, RCreate = 115, RRead = 117,
RWrite = 119, RClunk = 121, RRemove = 123, RStat = 125, RWStat = 127,
RSession = 151, RSRead = 153, RSWrite = 155`; `RSRead` reuses the `RRead`
decoder and `RSWrite` the `RWrite` decoder; everything else falls to the
default case, UnsupportedMessageType. -/
def dispatchResponse (ty : Nat) (data : ByteReader) : Except Error ResponseMessage :=
  match ty with
  | 107 => parseErrorResponse data
  | 101 => parseVersionResponse data
  | 103 => parseAuthResponse data
  | 105 => parseAttachResponse data
  | 111 => parseWalkResponse data
  | 113 => parseOpenResponse data
  | 115 => parseCreateResponse data
  | 153 => parseReadResponse data
  | 117 => parseReadResponse data
  | 155 => parseWriteResponse data
  | 119 => parseWriteResponse data
  | 125 => parseStatResponse data
  | 109 => Except.ok ResponseMessage.Flush
  | 121 => Except.ok ResponseMessage.Clunk
  | 123 => Except.ok ResponseMessage.Remove
  | 127 => Except.ok ResponseMessage.WStat
  | 151 => Except.ok ResponseMessage.Session
  | _ => Except.error (getCannedError CannedError.UnsupportedMessageType)

/-- The `switch (header.type)` of `Parser::parseRequest`, keyed by the raw
type byte: `TVersion = 100, TAuth = 102, TAttach = 104, TFlush = 108,
TWalk = 110, TOpen = 112, TCreate = 114, TRead = 116, TWrite = 118,
TClunk = 120, TRemove = 122, TStat = 124, TWStat = 126, TSession = 150,
TSRead = 152, TSWrite = 154`; everything else falls to the default case,
UnsupportedMessageType. -/
def dispatchRequest (ty : Nat) (data : ByteReader) : Except Error RequestMessage :=
  match ty with
  | 100 => parseVersionRequest data
  | 102 => parseAuthRequest data
  | 108 => parseFlushRequest data
  | 104 => parseAttachRequest data
  | 110 => parseWalkRequest data
  | 112 => parseOpenRequest data
  | 114 => parseCreateRequest data
  | 116 => parseReadRequest data
  | 118 => parseWriteRequest data
  | 120 => parseClunkRequest data
  | 122 => parseRemoveRequest data
  | 124 => parseStatRequest data
  | 126 => parseWStatRequest data
  | 150 => parseSessionRequest data
  | 152 => parseShortReadRequest data
  | 154 => parseShortWriteRequest data
  | _ => Except.error (getCannedError CannedError.UnsupportedMessageType)

/-- The maximum message size constant `styxe::kMaxMesssageSize = 8*1024`. -/
def kMaxMesssageSize : Nat := 8 * 1024

/-- The constant `Parser::PROTOCOL_VERSION = "9P2000.e"`. -/
def PROTOCOL_VERSION : String := "9P2000.e"

/-- The constant `Parser::UNKNOWN_PROTOCOL_VERSION = "unknown"`. -/
def UNKNOWN_PROTOCOL_VERSION : String := "unknown"

/-- State of a `styxe::Parser` instance: the configured maximum message
size, the negotiated maximum message size, and the version strings. -/
structure ParserState where
  maxMassageSize : Nat
  maxNegotiatedMessageSize : Nat
  initialVersion : String
  negotiatedVersion : String
deriving DecidableEq, Repr

/-- Mirrors the `Parser` constructor: both size fields start at the
configured maximum and both version fields at the supplied version. -/
def mkParser (maxMassageSize : Nat) (version : String) : ParserState :=
  { maxMassageSize := maxMassageSize
    maxNegotiatedMessageSize := maxMassageSize
    initialVersion := version
    negotiatedVersion := version }

/-- A default-constructed `Parser`: `Parser{}` uses `kMaxMesssageSize` and
`PROTOCOL_VERSION` as defaulted constructor arguments. -/
def defaultParser : ParserState := mkParser kMaxMesssageSize PROTOCOL_VERSION

/-- Mirrors the setter `Parser::maxNegotiatedMessageSize(size_type)`:
`assertIndexInRange(newMessageSize, 0, maxPossibleMessageSize() + 1)` raises
unless `newMessageSize < maxPossibleMessageSize() + 1` (modelled as `none`),
then the new negotiated size is `min(newMessageSize, maxPossibleMessageSize())`
and is stored and returned. -/
def setMaxNegotiatedMessageSize (p : ParserState) (newMessageSize : Nat) :
    Option (Nat × ParserState) :=
  if newMessageSize < p.maxMassageSize + 1 then
    some (min newMessageSize p.maxMassageSize,
          { p with maxNegotiatedMessageSize := min newMessageSize p.maxMassageSize })
  else
    none

/-- Mirrors `Parser::parseMessageHeader`. The C++ code advances the supplied
`ByteReader` in place; here the advanced reader is returned with the header. -/
def parseMessageHeader (p : ParserState) (src : ByteReader) :
    Except Error (MessageHeader × ByteReader) :=
  let mandatoryHeaderSize := headerSize
  let dataAvailable := src.remaining
  if dataAvailable < mandatoryHeaderSize then
    Except.error (getCannedError CannedError.IllFormedHeader)
  else
    match readU32le src with
    | none => Except.error (getCannedError CannedError.NotEnoughData)
    | some (messageSize, s1) =>
      if messageSize < mandatoryHeaderSize then
        Except.error (getCannedError CannedError.IllFormedHeader_FrameTooShort)
      else if messageSize > p.maxNegotiatedMessageSize then
        Except.error (getCannedError CannedError.IllFormedHeader_TooBig)
      else
        match s1.readByte with
        | none => Except.error (getCannedError CannedError.NotEnoughData)
        | some (messageBytecode, s2) =>
          if messageBytecode < 100 ∨ 156 ≤ messageBytecode then
            Except.error (getCannedError CannedError.UnsupportedMessageType)
          else
            match readU16le s2 with
            | none => Except.error (getCannedError CannedError.NotEnoughData)
            | some (tag, s3) =>
              Except.ok ({ messageSize := messageSize, type := messageBytecode,
                           tag := tag }, s3)

/-- Mirrors `Parser::parseResponse`: the TooBig, NotEnoughData and
MoreThenExpectedData pre-checks in source order, then the type dispatch. -/
def parseResponse (p : ParserState) (header : MessageHeader) (data : ByteReader) :
    Except Error ResponseMessage :=
  let expectedData := header.payloadSize
  if header.messageSize > p.maxNegotiatedMessageSize then
    Except.error (getCannedError CannedError.IllFormedHeader_TooBig)
  else
    let bytesRemaining := data.remaining
    if expectedData > bytesRemaining then
      Except.error (getCannedError CannedError.NotEnoughData)
    else if expectedData < bytesRemaining then
      Except.error (getCannedError CannedError.MoreThenExpectedData)
    else
      dispatchResponse header.type data

/-- Mirrors `Parser::parseRequest`: the same pre-checks as `parseResponse`,
then the request type dispatch. -/
def parseRequest (p : ParserState) (header : MessageHeader) (data : ByteReader) :
    Except Error RequestMessage :=
  let expectedData := header.payloadSize
  if header.messageSize > p.maxNegotiatedMessageSize then
    Except.error (getCannedError CannedError.IllFormedHeader_TooBig)
  else
    let bytesRemaining := data.remaining
    if expectedData > bytesRemaining then
      Except.error (getCannedError CannedError.NotEnoughData)
    else if expectedData < bytesRemaining then
      Except.error (getCannedError CannedError.MoreThenExpectedData)
    else
      dispatchRequest header.type data

/-! ### Basic facts about the modelled decoder primitives -/

/-- A successful single-byte read implies a byte was available, and advances
the position by exactly one over the same buffer. -/
theorem readByte_some_inv {r r1 : ByteReader} {b : Nat}
    (h : r.readByte = some (b, r1)) :
    1 ≤ r.remaining ∧ r1.data = r.data ∧ r1.pos = r.pos + 1 := by
  unfold ByteReader.readByte at h
  rcases Nat.lt_or_ge r.remaining 1 with hlt | hge
  · rw [if_pos hlt] at h
    exact absurd h (by simp)
  · rw [if_neg (by omega)] at h
    simp only [Option.some.injEq, Prod.mk.injEq] at h
    obtain ⟨-, h2⟩ := h
    subst h2
    exact ⟨hge, rfl, rfl⟩

/-- A single-byte read succeeds whenever a byte remains. -/
theorem readByte_some_of_remaining {r : ByteReader} (h : 1 ≤ r.remaining) :
    r.readByte = some (r.data.getD r.pos 0, { r with pos := r.pos + 1 }) := by
  unfold ByteReader.readByte
  rw [if_neg (by omega)]

/-- A successful `n`-byte little-endian read implies `n` bytes were
available, and advances the position by exactly `n` over the same buffer. -/
theorem readUleBytes_some_inv :
    ∀ (n : Nat) (r r1 : ByteReader) (v : Nat),
      readUleBytes n r = some (v, r1) →
      n ≤ r.remaining ∧ r1.data = r.data ∧ r1.pos = r.pos + n := by
  intro n
  induction n with
  | zero =>
    intro r r1 v h
    simp only [readUleBytes, Option.some.injEq, Prod.mk.injEq] at h
    obtain ⟨-, h2⟩ := h
    subst h2
    exact ⟨Nat.zero_le _, rfl, rfl⟩
  | succ n ih =>
    intro r r1 v h
    cases hb : r.readByte with
    | none =>
      simp only [readUleBytes, hb] at h
      exact absurd h (by simp)
    | some p1 =>
      obtain ⟨b, ra⟩ := p1
      cases hu : readUleBytes n ra with
      | none =>
        simp only [readUleBytes, hb, hu] at h
        exact absurd h (by simp)
      | some p2 =>
        obtain ⟨hi, rb⟩ := p2
        simp only [readUleBytes, hb, hu, Option.some.injEq, Prod.mk.injEq] at h
        obtain ⟨-, h2⟩ := h
        subst h2
        obtain ⟨hrb, hdb, hpb⟩ := readByte_some_inv hb
        obtain ⟨hru, hdu, hpu⟩ := ih ra rb hi hu
        refine ⟨?_, by rw [hdu, hdb], by omega⟩
        simp only [ByteReader.remaining] at hrb hru ⊢
        rw [hdb, hpb] at hru
        omega

/-- An `n`-byte little-endian read succeeds whenever `n` bytes remain. -/
theorem readUleBytes_some_of_remaining :
    ∀ (n : Nat) (r : ByteReader), n ≤ r.remaining →
      ∃ v r1, readUleBytes n r = some (v, r1) := by
  intro n
  induction n with
  | zero => intro r _; exact ⟨0, r, rfl⟩
  | succ n ih =>
    intro r h
    have hb := @readByte_some_of_remaining r (by omega)
    have h2 : n ≤ ({ r with pos := r.pos + 1 } : ByteReader).remaining := by
      simp only [ByteReader.remaining] at h ⊢
      omega
    obtain ⟨v, r1, hu⟩ := ih { r with pos := r.pos + 1 } h2
    refine ⟨r.data.getD r.pos 0 + 256 * v, r1, ?_⟩
    simp only [readUleBytes, hb, hu]

/-- Under the `u32` range of the size field, the wrapping payload size is the
plain difference `messageSize - 7`. -/
theorem payloadSize_eq_sub {header : MessageHeader} (h7 : 7 ≤ header.messageSize)
    (h32 : header.messageSize < 2 ^ 32) :
    header.payloadSize = header.messageSize - 7 := by
  have h2 : (2 : Nat) ^ 32 = 4294967296 := by norm_num
  rw [h2] at h32
  simp only [MessageHeader.payloadSize, headerSize, h2]
  omega

/-- When the pre-dispatch checks pass, `parseResponse` is exactly the type
dispatch on the payload. -/
theorem parseResponse_eq_dispatch (p : ParserState) (header : MessageHeader)
    (data : ByteReader) (hsz : header.messageSize ≤ p.maxNegotiatedMessageSize)
    (hrem : data.remaining = header.payloadSize) :
    parseResponse p header data = dispatchResponse header.type data := by
  simp only [parseResponse]
  rw [if_neg (by omega), if_neg (by omega), if_neg (by omega)]

/-- When the pre-dispatch checks pass, `parseRequest` is exactly the type
dispatch on the payload. -/
theorem parseRequest_eq_dispatch (p : ParserState) (header : MessageHeader)
    (data : ByteReader) (hsz : header.messageSize ≤ p.maxNegotiatedMessageSize)
    (hrem : data.remaining = header.payloadSize) :
    parseRequest p header data = dispatchRequest header.type data := by
  simp only [parseRequest]
  rw [if_neg (by omega), if_neg (by omega), if_neg (by omega)]

/-! ### Claim theorems -/

/-- C6: for every input buffer with fewer than 7 bytes remaining,
`Parser::parseMessageHeader` returns the IllFormedHeader error. -/
theorem parseMessageHeader_illFormedHeader_of_short (p : ParserState)
    (src : ByteReader) (h : src.remaining < 7) :
    parseMessageHeader p src =
      Except.error (getCannedError CannedError.IllFormedHeader) := by
  simp only [parseMessageHeader, headerSize]
  rw [if_pos (by omega)]

/-- Witness for C6: six zero bytes are rejected as IllFormedHeader. -/
theorem parseMessageHeader_illFormedHeader_of_short_witness :
    parseMessageHeader defaultParser ⟨[0, 0, 0, 0, 0, 0], 0⟩ =
      Except.error (getCannedError CannedError.IllFormedHeader) :=
  parseMessageHeader_illFormedHeader_of_short defaultParser
    ⟨[0, 0, 0, 0, 0, 0], 0⟩ (by decide)

/-- C5: with at least 7 bytes remaining, `Parser::parseMessageHeader` fails
with FrameTooShort when the little-endian `u32` size field is below 7 — with
no regard to the negotiated limit, so this check comes first — and otherwise
fails with TooBig when the size field exceeds the negotiated maximum. -/
theorem parseMessageHeader_size_guards (p : ParserState) (src s1 : ByteReader)
    (messageSize : Nat) (hrem : 7 ≤ src.remaining)
    (hread : readU32le src = some (messageSize, s1)) :
    (messageSize < 7 →
      parseMessageHeader p src =
        Except.error (getCannedError CannedError.IllFormedHeader_FrameTooShort)) ∧
    (7 ≤ messageSize → p.maxNegotiatedMessageSize < messageSize →
      parseMessageHeader p src =
        Except.error (getCannedError CannedError.IllFormedHeader_TooBig)) := by
  constructor
  · intro hsz
    simp only [parseMessageHeader, headerSize, hread]
    rw [if_neg (by omega), if_pos (by omega)]
  · intro h1 h2
    simp only [parseMessageHeader, headerSize, hread]
    rw [if_neg (by omega), if_neg (by omega), if_pos (by omega)]

/-- Witness for C5: a frame declaring size 5 is FrameTooShort, and a frame
declaring size 8193 against the default 8192 cap is TooBig. -/
theorem parseMessageHeader_size_guards_witness :
    parseMessageHeader defaultParser ⟨[5, 0, 0, 0, 100, 0, 0], 0⟩ =
      Except.error (getCannedError CannedError.IllFormedHeader_FrameTooShort) ∧
    parseMessageHeader defaultParser ⟨[1, 32, 0, 0, 100, 0, 0], 0⟩ =
      Except.error (getCannedError CannedError.IllFormedHeader_TooBig) :=
  ⟨(parseMessageHeader_size_guards defaultParser ⟨[5, 0, 0, 0, 100, 0, 0], 0⟩
      ⟨[5, 0, 0, 0, 100, 0, 0], 4⟩ 5 (by decide) (by decide)).1 (by decide),
   (parseMessageHeader_size_guards defaultParser ⟨[1, 32, 0, 0, 100, 0, 0], 0⟩
      ⟨[1, 32, 0, 0, 100, 0, 0], 4⟩ 8193 (by decide) (by decide)).2
     (by decide) (by decide)⟩

/-- C9: the library maximum message size constant is 8192 bytes; a
default-constructed `Parser` has configured and negotiated maximum message
size 8192 and negotiated version `"9P2000.e"`; the fallback version string
constant is `"unknown"`. -/
theorem parser_default_constants :
    kMaxMesssageSize = 8192 ∧
    defaultParser.maxMassageSize = 8192 ∧
    defaultParser.maxNegotiatedMessageSize = 8192 ∧
    defaultParser.negotiatedVersion = "9P2000.e" ∧
    UNKNOWN_PROTOCOL_VERSION = "unknown" :=
  ⟨rfl, rfl, rfl, rfl, rfl⟩

/-- C3 counterexample: `Parser::maxNegotiatedMessageSize(x)` does not return
`min(x, configured_msize)` for every `x`: at `x = 8193` against the default
configured size 8192, `assertIndexInRange(x, 0, configured + 1)` fails and
the call raises instead of returning 8192. -/
theorem setMaxNegotiatedMessageSize_rejects_oversize :
    setMaxNegotiatedMessageSize defaultParser 8193 = none := rfl

/-- C3 amended: for `x ≤ configured_msize` the setter returns
`min(x, configured_msize)` and stores it; every successful call returns and
stores `min(x, configured_msize)`, leaves the configured size unchanged and
establishes `negotiated_msize ≤ configured_msize`, so the invariant holds
after any sequence of successful calls; for `x > configured_msize` the
internal range assertion fails instead of clamping. -/
theorem setMaxNegotiatedMessageSize_clamp (p : ParserState) (x v : Nat)
    (q : ParserState) :
    (x ≤ p.maxMassageSize →
      setMaxNegotiatedMessageSize p x =
        some (min x p.maxMassageSize,
              { p with maxNegotiatedMessageSize := min x p.maxMassageSize })) ∧
    (setMaxNegotiatedMessageSize p x = some (v, q) →
      v = min x p.maxMassageSize ∧
      q.maxNegotiatedMessageSize = v ∧
      q.maxMassageSize = p.maxMassageSize ∧
      q.maxNegotiatedMessageSize ≤ q.maxMassageSize) := by
  constructor
  · intro hx
    simp only [setMaxNegotiatedMessageSize]
    rw [if_pos (by omega)]
  · intro h
    simp only [setMaxNegotiatedMessageSize] at h
    by_cases hx : x < p.maxMassageSize + 1
    · rw [if_pos hx] at h
      simp only [Option.some.injEq, Prod.mk.injEq] at h
      obtain ⟨hv, hq⟩ := h
      subst hv
      subst hq
      exact ⟨rfl, rfl, rfl, min_le_right x p.maxMassageSize⟩
    · rw [if_neg hx] at h
      exact absurd h (by simp)

/-- Witness for C3 amended: negotiating 4096 against the default parser
stores and returns 4096. -/
theorem setMaxNegotiatedMessageSize_clamp_witness :
    setMaxNegotiatedMessageSize defaultParser 4096 =
      some (min 4096 defaultParser.maxMassageSize,
            { defaultParser with
                maxNegotiatedMessageSize := min 4096 defaultParser.maxMassageSize }) :=
  (setMaxNegotiatedMessageSize_clamp defaultParser 4096 0 defaultParser).1
    (by decide)

/-- C1 counterexample: the claimed type guard is wrong for `t = 106`
(TError): on the frame `07 00 00 00 6A 00 00` — at least 7 bytes remaining,
declared size 7 within `[7, negotiated_msize]` — the header parser accepts
the message instead of failing with UnsupportedMessageType. The same holds
for every type byte in `128..149`. -/
theorem parseMessageHeader_accepts_type_106 :
    parseMessageHeader defaultParser ⟨[7, 0, 0, 0, 106, 0, 0], 0⟩ =
      Except.ok ({ messageSize := 7, type := 106, tag := 0 },
                 ⟨[7, 0, 0, 0, 106, 0, 0], 7⟩) := rfl

/-- C1 amended: for every input buffer with at least 7 bytes remaining whose
declared size field is in `[7, negotiated_msize]`, `parseMessageHeader`
fails with UnsupportedMessageType exactly when the type byte `t` satisfies
`t < 100` or `t > 155`; in particular `t = 106` (TError) and the gap
`127 < t < 150` are accepted by the header parser. -/
theorem parseMessageHeader_type_guard (p : ParserState) (src s1 s2 : ByteReader)
    (messageSize messageBytecode : Nat)
    (hrem : 7 ≤ src.remaining)
    (h1 : readU32le src = some (messageSize, s1))
    (h2 : s1.readByte = some (messageBytecode, s2))
    (hlo : 7 ≤ messageSize) (hhi : messageSize ≤ p.maxNegotiatedMessageSize) :
    parseMessageHeader p src =
        Except.error (getCannedError CannedError.UnsupportedMessageType) ↔
      (messageBytecode < 100 ∨ 155 < messageBytecode) := by
  have i1 := readUleBytes_some_inv 4 src s1 messageSize h1
  obtain ⟨-, hd2, hp2⟩ := readByte_some_inv h2
  have hs2 : 2 ≤ s2.remaining := by
    simp only [ByteReader.remaining] at hrem ⊢
    rw [hd2, i1.2.1, hp2, i1.2.2]
    omega
  obtain ⟨tag, s3, h3⟩ := readUleBytes_some_of_remaining 2 s2 hs2
  simp only [parseMessageHeader, headerSize, h1, h2, readU16le, h3]
  rw [if_neg (by omega), if_neg (by omega), if_neg (by omega)]
  by_cases hc : messageBytecode < 100 ∨ 156 ≤ messageBytecode
  · rw [if_pos hc]
    exact ⟨fun _ => by omega, fun _ => rfl⟩
  · rw [if_neg hc]
    constructor
    · intro hres
      exact absurd hres (by simp)
    · intro hcond
      exact absurd (by omega : messageBytecode < 100 ∨ 156 ≤ messageBytecode) hc

/-- Witness for C1 amended: type byte 99 on a well-sized frame is rejected
as UnsupportedMessageType. -/
theorem parseMessageHeader_type_guard_witness :
    parseMessageHeader defaultParser ⟨[7, 0, 0, 0, 99, 0, 0], 0⟩ =
      Except.error (getCannedError CannedError.UnsupportedMessageType) :=
  (parseMessageHeader_type_guard defaultParser ⟨[7, 0, 0, 0, 99, 0, 0], 0⟩
      ⟨[7, 0, 0, 0, 99, 0, 0], 4⟩ ⟨[7, 0, 0, 0, 99, 0, 0], 5⟩ 7 99
      (by decide) (by decide) (by decide) (by decide) (by decide)).2
    (by decide)

/-- C7: `parseMessageHeader` performs no check of the remaining bytes
against the declared payload: whenever the 7 header bytes parse to a size in
`[7, negotiated_msize]` and a type byte the parser recognizes (`100..155`),
the call returns the header and advances the cursor by exactly 7 bytes —
with no hypothesis relating `remaining` to `size - 7`. -/
theorem parseMessageHeader_no_payload_check (p : ParserState)
    (src s1 s2 s3 : ByteReader) (messageSize messageBytecode tag : Nat)
    (hrem : 7 ≤ src.remaining)
    (h1 : readU32le src = some (messageSize, s1))
    (h2 : s1.readByte = some (messageBytecode, s2))
    (h3 : readU16le s2 = some (tag, s3))
    (hlo : 7 ≤ messageSize) (hhi : messageSize ≤ p.maxNegotiatedMessageSize)
    (htylo : 100 ≤ messageBytecode) (htyhi : messageBytecode ≤ 155) :
    parseMessageHeader p src =
      Except.ok ({ messageSize := messageSize, type := messageBytecode,
                   tag := tag }, s3) ∧
    s3.data = src.data ∧ s3.pos = src.pos + 7 := by
  have i1 := readUleBytes_some_inv 4 src s1 messageSize h1
  obtain ⟨-, hd2, hp2⟩ := readByte_some_inv h2
  have h3u : readUleBytes 2 s2 = some (tag, s3) := h3
  have i3 := readUleBytes_some_inv 2 s2 s3 tag h3u
  refine ⟨?_, ?_, ?_⟩
  · simp only [parseMessageHeader, headerSize, h1, h2, h3]
    rw [if_neg (by omega), if_neg (by omega), if_neg (by omega),
        if_neg (by omega)]
  · rw [i3.2.1, hd2, i1.2.1]
  · rw [i3.2.2, hp2, i1.2.2]

/-- Witness for C7: a 7-byte buffer declaring size 100 parses fine although
zero payload bytes remain, far fewer than `size - 7 = 93`. -/
theorem parseMessageHeader_no_payload_check_witness :
    parseMessageHeader defaultParser ⟨[100, 0, 0, 0, 100, 0, 0], 0⟩ =
      Except.ok ({ messageSize := 100, type := 100, tag := 0 },
                 ⟨[100, 0, 0, 0, 100, 0, 0], 7⟩) ∧
    (⟨[100, 0, 0, 0, 100, 0, 0], 7⟩ : ByteReader).remaining < 100 - 7 :=
  ⟨(parseMessageHeader_no_payload_check defaultParser
      ⟨[100, 0, 0, 0, 100, 0, 0], 0⟩ ⟨[100, 0, 0, 0, 100, 0, 0], 4⟩
      ⟨[100, 0, 0, 0, 100, 0, 0], 5⟩ ⟨[100, 0, 0, 0, 100, 0, 0], 7⟩ 100 100 0
      (by decide) (by decide) (by decide) (by decide) (by decide) (by decide)
      (by decide) (by decide)).1,
   by decide⟩

/-- C4: for every header (with its `u32` size field at least 7) and cursor,
`parseRequest` and `parseResponse` fail with TooBig when the size exceeds
the negotiated limit; otherwise with NotEnoughData when fewer than
`size - 7` bytes remain; otherwise with MoreThenExpectedData when more
remain; and payload decoding (the type dispatch) is reached exactly when
`remaining = size - 7`. -/
theorem parse_entry_points_precheck (p : ParserState) (header : MessageHeader)
    (data : ByteReader) (h7 : 7 ≤ header.messageSize)
    (h32 : header.messageSize < 2 ^ 32) :
    (p.maxNegotiatedMessageSize < header.messageSize →
      parseRequest p header data =
        Except.error (getCannedError CannedError.IllFormedHeader_TooBig) ∧
      parseResponse p header data =
        Except.error (getCannedError CannedError.IllFormedHeader_TooBig)) ∧
    (header.messageSize ≤ p.maxNegotiatedMessageSize →
      data.remaining < header.messageSize - 7 →
      parseRequest p header data =
        Except.error (getCannedError CannedError.NotEnoughData) ∧
      parseResponse p header data =
        Except.error (getCannedError CannedError.NotEnoughData)) ∧
    (header.messageSize ≤ p.maxNegotiatedMessageSize →
      header.messageSize - 7 < data.remaining →
      parseRequest p header data =
        Except.error (getCannedError CannedError.MoreThenExpectedData) ∧
      parseResponse p header data =
        Except.error (getCannedError CannedError.MoreThenExpectedData)) ∧
    (header.messageSize ≤ p.maxNegotiatedMessageSize →
      data.remaining = header.messageSize - 7 →
      parseRequest p header data = dispatchRequest header.type data ∧
      parseResponse p header data = dispatchResponse header.type data) := by
  have hpay := payloadSize_eq_sub h7 h32
  refine ⟨?_, ?_, ?_, ?_⟩
  · intro hbig
    constructor
    · simp only [parseRequest]
      rw [if_pos (by omega)]
    · simp only [parseResponse]
      rw [if_pos (by omega)]
  · intro hsz hless
    constructor
    · simp only [parseRequest]
      rw [if_neg (by omega), if_pos (by omega)]
    · simp only [parseResponse]
      rw [if_neg (by omega), if_pos (by omega)]
  · intro hsz hmore
    constructor
    · simp only [parseRequest]
      rw [if_neg (by omega), if_neg (by omega), if_pos (by omega)]
    · simp only [parseResponse]
      rw [if_neg (by omega), if_neg (by omega), if_pos (by omega)]
  · intro hsz hexact
    exact ⟨parseRequest_eq_dispatch p header data hsz (by omega),
           parseResponse_eq_dispatch p header data hsz (by omega)⟩

/-- Witness for C4: a header of size 9 with an empty payload cursor fails
NotEnoughData in both entry points. -/
theorem parse_entry_points_precheck_witness :
    parseRequest defaultParser { messageSize := 9, type := 100, tag := 0 }
        ⟨[], 0⟩ =
      Except.error (getCannedError CannedError.NotEnoughData) ∧
    parseResponse defaultParser { messageSize := 9, type := 100, tag := 0 }
        ⟨[], 0⟩ =
      Except.error (getCannedError CannedError.NotEnoughData) :=
  (parse_entry_points_precheck defaultParser
      { messageSize := 9, type := 100, tag := 0 } ⟨[], 0⟩
      (by decide) (by norm_num)).2.1 (by decide) (by decide)

/-- A successful `parseReadResponse` always produces the `Read` variant. -/
theorem parseReadResponse_ok_shape (data : ByteReader) (m : ResponseMessage)
    (h : parseReadResponse data = Except.ok m) :
    ∃ d, m = ResponseMessage.Read d := by
  rw [parseReadResponse] at h
  cases hb : readBlob data with
  | none => simp [hb, ofDecoded] at h
  | some dr =>
    obtain ⟨d, r1⟩ := dr
    simp [hb, ofDecoded] at h
    exact ⟨d, h.symm⟩

/-- A successful `parseWriteResponse` always produces the `Write` variant. -/
theorem parseWriteResponse_ok_shape (data : ByteReader) (m : ResponseMessage)
    (h : parseWriteResponse data = Except.ok m) :
    ∃ c, m = ResponseMessage.Write c := by
  rw [parseWriteResponse] at h
  cases hb : readU32le data with
  | none => simp [hb, ofDecoded] at h
  | some dr =>
    obtain ⟨c, r1⟩ := dr
    simp [hb, ofDecoded] at h
    exact ⟨c, h.symm⟩

/-- C8: when the pre-dispatch checks pass, a frame of type RSRead (153) is
decoded by the same decoder as RRead (117) and yields the `Read` variant,
and a frame of type RSWrite (155) is decoded as RWrite (119) and yields the
`Write` variant. -/
theorem parseResponse_rsread_rswrite_alias (p : ParserState)
    (header : MessageHeader) (data : ByteReader)
    (hsz : header.messageSize ≤ p.maxNegotiatedMessageSize)
    (hrem : data.remaining = header.payloadSize) :
    (header.type = 153 →
      parseResponse p header data = parseReadResponse data ∧
      parseResponse p header data =
        parseResponse p { header with type := 117 } data ∧
      ∀ m, parseResponse p header data = Except.ok m →
        ∃ d, m = ResponseMessage.Read d) ∧
    (header.type = 155 →
      parseResponse p header data = parseWriteResponse data ∧
      parseResponse p header data =
        parseResponse p { header with type := 119 } data ∧
      ∀ m, parseResponse p header data = Except.ok m →
        ∃ c, m = ResponseMessage.Write c) := by
  have he := parseResponse_eq_dispatch p header data hsz hrem
  constructor
  · intro ht
    have he2 := parseResponse_eq_dispatch p { header with type := 117 }
      data hsz hrem
    have hd : parseResponse p header data = parseReadResponse data := by
      rw [he, ht]
      rfl
    refine ⟨hd, ?_, ?_⟩
    · rw [hd, he2]
      rfl
    · intro m hm
      rw [hd] at hm
      exact parseReadResponse_ok_shape data m hm
  · intro ht
    have he2 := parseResponse_eq_dispatch p { header with type := 119 }
      data hsz hrem
    have hd : parseResponse p header data = parseWriteResponse data := by
      rw [he, ht]
      rfl
    refine ⟨hd, ?_, ?_⟩
    · rw [hd, he2]
      rfl
    · intro m hm
      rw [hd] at hm
      exact parseWriteResponse_ok_shape data m hm

/-- Witness for C8: an RSRead frame with an empty blob decodes exactly like
the corresponding RRead frame. -/
theorem parseResponse_rsread_rswrite_alias_witness :
    parseResponse defaultParser { messageSize := 11, type := 153, tag := 0 }
        ⟨[0, 0, 0, 0], 0⟩ =
      parseResponse defaultParser { messageSize := 11, type := 117, tag := 0 }
        ⟨[0, 0, 0, 0], 0⟩ :=
  ((parseResponse_rsread_rswrite_alias defaultParser
      { messageSize := 11, type := 153, tag := 0 } ⟨[0, 0, 0, 0], 0⟩
      (by decide) (by decide)).1 rfl).2.1

/-- C10: when the pre-dispatch size checks pass, `parseRequest` rejects
every response type code (odd codes 101..127, and 151, 153, 155) as well as
TError (106) with UnsupportedMessageType, and `parseResponse` symmetrically
rejects every request type code (even codes 100..126, and 150, 152, 154) —
including TError through its even-code membership — although
`parseMessageHeader` accepted those codes. -/
theorem parse_entry_points_reject_wrong_direction (p : ParserState)
    (header : MessageHeader) (data : ByteReader)
    (h7 : 7 ≤ header.messageSize) (h32 : header.messageSize < 2 ^ 32)
    (hsz : header.messageSize ≤ p.maxNegotiatedMessageSize)
    (hrem : data.remaining = header.messageSize - 7) :
    ((101 ≤ header.type ∧ header.type ≤ 127 ∧ header.type % 2 = 1) ∨
        header.type = 151 ∨ header.type = 153 ∨ header.type = 155 ∨
        header.type = 106 →
      parseRequest p header data =
        Except.error (getCannedError CannedError.UnsupportedMessageType)) ∧
    ((100 ≤ header.type ∧ header.type ≤ 126 ∧ header.type % 2 = 0) ∨
        header.type = 150 ∨ header.type = 152 ∨ header.type = 154 →
      parseResponse p header data =
        Except.error (getCannedError CannedError.UnsupportedMessageType)) := by
  have hpay := payloadSize_eq_sub h7 h32
  obtain ⟨ms, ty, tg⟩ := header
  dsimp only at h7 h32 hsz hrem hpay
  constructor
  · intro ht
    dsimp only at ht
    rw [parseRequest_eq_dispatch p ⟨ms, ty, tg⟩ data hsz (by omega)]
    dsimp only
    have hb1 : 101 ≤ ty := by omega
    have hb2 : ty ≤ 155 := by omega
    interval_cases ty <;> first | rfl | exact absurd ht (by omega)
  · intro ht
    dsimp only at ht
    rw [parseResponse_eq_dispatch p ⟨ms, ty, tg⟩ data hsz (by omega)]
    dsimp only
    have hb1 : 100 ≤ ty := by omega
    have hb2 : ty ≤ 154 := by omega
    interval_cases ty <;> first | rfl | exact absurd ht (by omega)

/-- Witness for C10: a response-only code (RVersion, 101) fed to
`parseRequest` and a request-only code (TVersion, 100) fed to
`parseResponse` on well-framed empty payloads both yield
UnsupportedMessageType. -/
theorem parse_entry_points_reject_wrong_direction_witness :
    parseRequest defaultParser { messageSize := 7, type := 101, tag := 0 }
        ⟨[], 0⟩ =
      Except.error (getCannedError CannedError.UnsupportedMessageType) ∧
    parseResponse defaultParser { messageSize := 7, type := 100, tag := 0 }
        ⟨[], 0⟩ =
      Except.error (getCannedError CannedError.UnsupportedMessageType) :=
  ⟨(parse_entry_points_reject_wrong_direction defaultParser
      { messageSize := 7, type := 101, tag := 0 } ⟨[], 0⟩
      (by decide) (by norm_num) (by decide) (by decide)).1
     (Or.inl (by decide)),
   (parse_entry_points_reject_wrong_direction defaultParser
      { messageSize := 7, type := 100, tag := 0 } ⟨[], 0⟩
      (by decide) (by norm_num) (by decide) (by decide)).2
     (Or.inl (by decide))⟩

set_option maxRecDepth 20000 in
/-- C2 (code bug): an RWalk frame declaring `nqids = 17` — header size
`7 + 2 + 17*13 = 230`, payload `11 00` followed by 17 zero-filled 13-byte
qids — passes every check of `parseResponse` and decodes successfully, and
the decode loop stores a qid at array index 16, one past the end of the
16-element `Response::Walk::qids` array (the loop the source flags
`FIXME: Non-sense!`), instead of rejecting the frame and staying within
the first 16 slots. -/
theorem parseWalkResponse_writes_out_of_bounds :
    16 ∈ walkWriteIndices ⟨17 :: 0 :: List.replicate 221 0, 0⟩ ∧
    parseResponse defaultParser { messageSize := 230, type := 111, tag := 0 }
        ⟨17 :: 0 :: List.replicate 221 0, 0⟩ =
      Except.ok (ResponseMessage.Walk 17
        (List.replicate 17 { type := 0, version := 0, path := 0 })) := by
  constructor
  · decide
  · rfl
